import Mathlib

/-!
Shallow embedding of the GraphQL Yoga authorization plugin in
src/plugin.ts (the variant with the optional Redis cache) and of the
identity class in src/class.ts.

Modelling conventions:
* Machine strings are Lean `String`s.
* A JS value that may be `undefined`/`null` is an `Option`.
* Thrown errors are the `error` side of `Except`; a `GraphQLError`
  produced by `createGraphQLError` is modelled by its message and HTTP
  status, and a plain `Error` (thrown with `new Error`) by `Err.fatal`.
* The Redis client stores strings; a stored string is modelled by what
  matters to the code: the empty string (falsy on read), a non-empty
  string that fails `JSON.parse`, or a non-empty string parsing to a
  `SessionData` value.
* The Better Auth provider client is opaque: the one possible
  `getSession` call per invocation is modelled by its outcome, a
  `SessionResult` argument, and the `lookups` counter records how many
  times the code would have called it.
-/

/-- Session record returned by the provider (opaque content, an id suffices). -/
structure Session where
  id : String
  deriving Repr, DecidableEq

/-- User record; `role` is the optional role field read by the role check
(`user.role` may be absent, and the empty string is falsy in JS). -/
structure User where
  id : String
  role : Option String
  deriving Repr, DecidableEq

/-- The `data` value returned by `client.getSession()`:
`session` is the validity marker, `user` the user record. -/
structure SessionData where
  session : Option Session
  user : User
  deriving Repr, DecidableEq

/-- A GraphQL error as built by `createGraphQLError` with an http status
extension: message plus status code. -/
structure GraphQLError where
  message : String
  status : Nat
  deriving Repr, DecidableEq

/-- Model of `unauthorizedError` in src/plugin.ts: a GraphQL error with
http status 401 and the given message. -/
def unauthorizedError (message : String) : GraphQLError :=
  ⟨message, 401⟩

/-- A thrown JS error: either a `GraphQLError` or a plain `Error`
(as thrown by the context-build hook when the request is missing). -/
inductive Err where
  | gql (e : GraphQLError)
  | fatal (message : String)
  deriving Repr, DecidableEq

/-- The `messages` option record. -/
structure Messages where
  invalidToken : String
  expiredToken : String
  invalidPermissions : String
  authRequired : String
  deriving Repr, DecidableEq

/-- Default messages destructured in `authorize` (src/plugin.ts lines
168-174); the hook default in `useBetterAuth` only carries `authRequired`,
with the same string, and only `authRequired` is ever read there. -/
def defaultMessages : Messages :=
  ⟨"The provided access token is invalid.",
   "An invalid or expired access token was provided.",
   "You do not have the necessary permissions to access this resource.",
   "Authentication is required to access this resource."⟩

/-- Plugin options (src/plugin.ts `BetterAuthPluginOptionsBase`), with
`none` standing for an omitted option; `redis` records whether a cache
client was provided. `baseURL`, `plugins`, `suppressRoleWarning` and
`getToken` only configure opaque externals and are not modelled. -/
structure BetterAuthPluginOptions where
  redis : Bool
  cachePrefix : Option String
  cacheExpiration : Option Nat
  allowedRoles : Option (List String)
  requireAuth : Option Bool
  extendContextField : Option String
  messages : Option Messages
  deriving Repr, DecidableEq

/-- A string stored in the Redis cache, as far as the code can observe it:
empty (falsy when read back), non-empty but not valid JSON, or non-empty
and parsing to a `SessionData`. -/
inductive CacheVal where
  | emptyStr
  | parseFail
  | parseOk (d : SessionData)
  deriving Repr, DecidableEq

/-- Cache contents: association list from key to stored value. -/
abbrev Cache := List (String × CacheVal)

/-- Model of `redis.get`: the stored value for the key, or `none` on a miss. -/
def cacheGet (c : Cache) (k : String) : Option CacheVal :=
  match c with
  | [] => none
  | (k2, v) :: rest => if k2 = k then some v else cacheGet rest k

/-- Outcome of the single possible `client.getSession()` call of an
`authorize` invocation: the call throws, or resolves to `{ data }` with
`data` possibly null. -/
inductive SessionResult where
  | throws
  | ok (data : Option SessionData)
  deriving Repr, DecidableEq

/-- The identity class of src/class.ts (`BetterAuth`): the stored session
and user; the opaque client handle is not modelled. `session` is an
`Option` because `handleAuthData` assigns `data.session!`, a cast that
does not check presence at runtime. -/
structure BetterAuth where
  session : Option Session
  user : User
  deriving Repr, DecidableEq

/-- A `redis.setEx(key, ttl, value)` call. -/
structure CacheWrite where
  key : String
  ttl : Nat
  value : CacheVal
  deriving Repr, DecidableEq

/-- Result of one `authorize` invocation: the returned value or thrown
error, plus the observable effects (provider `getSession` calls, cache
reads, cache writes). -/
structure AuthorizeResult where
  result : Except Err BetterAuth
  lookups : Nat
  cacheReads : Nat
  writes : List CacheWrite
  deriving Repr

/-- The fallback expression `user.role || "user"` of `handleAuthData`: absent and
empty-string roles are falsy and default to `"user"`. -/
def userRole (u : User) : String :=
  match u.role with
  | none => "user"
  | some "" => "user"
  | some r => r

/-- Model of `handleAuthData` (src/plugin.ts lines 262-297): role check
when `allowedRoles` is non-empty, then construction of the `BetterAuth`
identity from `data.session!` and `data.user`. Recording into the
per-request store is handled by the hook model. -/
def handleAuthData (data : SessionData) (allowedRoles : List String)
    (messages : Messages) : Except Err BetterAuth :=
  if allowedRoles.length > 0 then
    if allowedRoles.contains (userRole data.user) then
      .ok ⟨data.session, data.user⟩
    else
      .error (.gql (unauthorizedError messages.invalidPermissions))
  else
    .ok ⟨data.session, data.user⟩

/-- The cache-miss block of `authorize` (src/plugin.ts lines 219-242):
one `getSession` call, session-marker check, `setEx` write, then
`handleAuthData`, all inside `try ... catch` whose bare catch re-throws
every failure as `Unauthorized(invalidToken)`. The one cache read that
found the miss is already counted here. -/
def authorizeFresh (messages : Messages) (allowedRoles : List String)
    (cacheKey : String) (ttl : Nat) (provider : SessionResult) :
    AuthorizeResult :=
  match provider with
  | .throws =>
    ⟨.error (.gql (unauthorizedError messages.invalidToken)), 1, 1, []⟩
  | .ok none =>
    ⟨.error (.gql (unauthorizedError messages.invalidToken)), 1, 1, []⟩
  | .ok (some d) =>
    match d.session with
    | none =>
      ⟨.error (.gql (unauthorizedError messages.invalidToken)), 1, 1, []⟩
    | some _ =>
      match handleAuthData d allowedRoles messages with
      | .ok auth => ⟨.ok auth, 1, 1, [⟨cacheKey, ttl, .parseOk d⟩]⟩
      | .error _ =>
        ⟨.error (.gql (unauthorizedError messages.invalidToken)), 1, 1,
         [⟨cacheKey, ttl, .parseOk d⟩]⟩

/-- Model of `authorize` (src/plugin.ts lines 155-260).

Without a cache client: one `getSession` call and the session-marker
check inside `try ... catch`, whose bare catch re-throws every failure,
including a role failure raised by `handleAuthData`, as
`Unauthorized(invalidToken)`.

With a cache client: one `redis.get`; a falsy read (miss or stored empty
string) runs the fresh-lookup block; a hit parses the stored string and
runs `handleAuthData` inside a catch that re-throws a `GraphQLError`
unchanged and re-classifies anything else as `Unauthorized(invalidToken)`. -/
def authorize (options : BetterAuthPluginOptions) (token : String)
    (cache : Cache) (provider : SessionResult) : AuthorizeResult :=
  let messages := options.messages.getD defaultMessages
  let allowedRoles := options.allowedRoles.getD []
  if options.redis = false then
    match provider with
    | .throws =>
      ⟨.error (.gql (unauthorizedError messages.invalidToken)), 1, 0, []⟩
    | .ok none =>
      ⟨.error (.gql (unauthorizedError messages.invalidToken)), 1, 0, []⟩
    | .ok (some d) =>
      match d.session with
      | none =>
        ⟨.error (.gql (unauthorizedError messages.invalidToken)), 1, 0, []⟩
      | some _ =>
        match handleAuthData d allowedRoles messages with
        | .ok auth => ⟨.ok auth, 1, 0, []⟩
        | .error _ =>
          ⟨.error (.gql (unauthorizedError messages.invalidToken)), 1, 0, []⟩
  else
    let cacheKey := options.cachePrefix.getD "tokens" ++ ":" ++ token
    let ttl := options.cacheExpiration.getD 5
    match cacheGet cache cacheKey with
    | none => authorizeFresh messages allowedRoles cacheKey ttl provider
    | some .emptyStr => authorizeFresh messages allowedRoles cacheKey ttl provider
    | some .parseFail =>
      ⟨.error (.gql (unauthorizedError messages.invalidToken)), 0, 1, []⟩
    | some (.parseOk d) =>
      match handleAuthData d allowedRoles messages with
      | .ok auth => ⟨.ok auth, 0, 1, []⟩
      | .error e => ⟨.error e, 0, 1, []⟩

/-- JS `header.split(' ')` on the underlying character list: split at every
single space, keeping empty fields; always returns at least one field. -/
def splitSpaceAux : List Char → List (List Char)
  | [] => [[]]
  | c :: rest =>
    if c = ' ' then [] :: splitSpaceAux rest
    else
      match splitSpaceAux rest with
      | s :: tail => (c :: s) :: tail
      | [] => [[c]]

/-- Model of `defaultGetToken` (src/plugin.ts lines 327-339): a missing or
empty (falsy) header yields no token; otherwise the header is split on
spaces, a first field other than `"Bearer"` throws a 401 naming the
scheme, and otherwise the second field (possibly absent, possibly empty)
is the token. -/
def defaultGetToken (header : Option String) : Except Err (Option String) :=
  match header with
  | none => .ok none
  | some h =>
    if h = "" then .ok none
    else
      let parts := splitSpaceAux h.data
      let scheme := String.mk (parts.headD [])
      if scheme ≠ "Bearer" then
        .error (.gql (unauthorizedError
          ("Unsupported token type provided: \"" ++ scheme ++ "\"")))
      else
        .ok ((parts[1]?).map String.mk)

/-- Result of the pre-parse hook for one request: the thrown error or the
payload recorded in the per-request store (`none` when no credential was
found), plus the effects of the inner `authorize` call. -/
structure HookOutcome where
  result : Except Err (Option BetterAuth)
  lookups : Nat
  cacheReads : Nat
  writes : List CacheWrite
  deriving Repr

/-- Model of the `onRequestParse` hook (src/plugin.ts lines 127-135) with
the default token extractor: extract, and if a token is present (`token
!= null`, so the empty string counts) run `authorize`; with no token and
`requireAuth` set, throw `Unauthorized(authRequired)`. -/
def onRequestParse (options : BetterAuthPluginOptions)
    (header : Option String) (cache : Cache) (provider : SessionResult) :
    HookOutcome :=
  match defaultGetToken header with
  | .error e => ⟨.error e, 0, 0, []⟩
  | .ok none =>
    if options.requireAuth.getD false then
      ⟨.error (.gql (unauthorizedError
        (options.messages.getD defaultMessages).authRequired)), 0, 0, []⟩
    else
      ⟨.ok none, 0, 0, []⟩
  | .ok (some token) =>
    let r := authorize options token cache provider
    match r.result with
    | .error e => ⟨.error e, r.lookups, r.cacheReads, r.writes⟩
    | .ok auth => ⟨.ok (some auth), r.lookups, r.cacheReads, r.writes⟩

/-- The per-request store entry visible to the context-build hook after the
pre-parse hook ran: the recorded payload on success, nothing otherwise. -/
def storedPayload (h : HookOutcome) : Option BetterAuth :=
  match h.result with
  | .ok s => s
  | .error _ => none

/-- Model of the `onContextBuilding` hook (src/plugin.ts lines 137-151):
with no request on the context it throws a plain `Error`; otherwise it
merges the recorded payload, when present, into the context under the
configured field name (default `"auth"`). The returned value is the
field-name/payload pair passed to `extendContext`, or `none` when the
context is left untouched. -/
def onContextBuilding (options : BetterAuthPluginOptions)
    (requestPresent : Bool) (stored : Option BetterAuth) :
    Except Err (Option (String × BetterAuth)) :=
  if requestPresent = false then
    .error (.fatal
      "Request is not available on context! Make sure you use this plugin with GraphQL Yoga.")
  else
    match stored with
    | some payload =>
      .ok (some (options.extendContextField.getD "auth", payload))
    | none => .ok none

/-- Every split has at least one field, and the first field is the text up
to the first space. -/
theorem splitSpaceAux_head (cs : List Char) :
    ∃ tail, splitSpaceAux cs = (cs.takeWhile fun c => c != ' ') :: tail := by
  induction cs with
  | nil => exact ⟨[], rfl⟩
  | cons c rest ih =>
    obtain ⟨tail, htail⟩ := ih
    by_cases hc : c = ' '
    · subst hc
      exact ⟨splitSpaceAux rest, by simp [splitSpaceAux, List.takeWhile]⟩
    · refine ⟨tail, ?_⟩
      have hb : (c != ' ') = true := by simp [hc]
      simp only [splitSpaceAux, if_neg hc, htail, List.takeWhile]
      simp [hb]

/-- Splitting a string of the form `w ++ " " ++ t` where `w` has no space:
the first field is `w` and the rest is the split of `t`. -/
theorem splitSpaceAux_append (w t : List Char) (hw : ' ' ∉ w) :
    splitSpaceAux (w ++ ' ' :: t) = w :: splitSpaceAux t := by
  induction w with
  | nil => simp [splitSpaceAux]
  | cons c w ih =>
    have hc : c ≠ ' ' := by
      intro h; exact hw (by simp [h])
    have hw2 : ' ' ∉ w := fun h => hw (by simp [h])
    simp only [List.cons_append, splitSpaceAux, List.append_eq]
    rw [if_neg hc, ih hw2]

/-- Characterization of the default extractor on a header made of a
space-free scheme, a space, and arbitrary text: non-Bearer schemes throw,
and for Bearer the token is the text up to the following space. -/
theorem defaultGetToken_split (w t : List Char) (hw : ' ' ∉ w) (hne : w ≠ []) :
    defaultGetToken (some (String.mk (w ++ ' ' :: t))) =
      if String.mk w = "Bearer"
      then .ok (some (String.mk (t.takeWhile fun c => c != ' ')))
      else .error (.gql (unauthorizedError
        ("Unsupported token type provided: \"" ++ String.mk w ++ "\""))) := by
  have hne' : String.mk (w ++ ' ' :: t) ≠ "" := by
    intro h
    have hdata : w ++ ' ' :: t = ([] : List Char) := congrArg String.data h
    cases w <;> simp at hdata
  obtain ⟨tail, htail⟩ := splitSpaceAux_head t
  simp only [defaultGetToken, if_neg hne',
    show (String.mk (w ++ ' ' :: t)).data = w ++ ' ' :: t from rfl,
    splitSpaceAux_append w t hw, htail]
  by_cases hB : String.mk w = "Bearer"
  · simp [hB]
  · simp [hB]

/-- C2 counterexample: on header `Bearer a b` the default extractor
returns only `a`, the text between the first and second space, not the
whole remainder `a b` after the first space. -/
theorem C2_counterexample_token_after_spaces :
    defaultGetToken (some "Bearer a b") = .ok (some "a") ∧
    (some "a" : Option String) ≠ some "a b" := by
  exact ⟨rfl, by decide⟩

/-- C2 (amended): the default extractor returns absent when the header is
missing (or empty); on a header of a space-free non-Bearer scheme
followed by a space it throws a 401 naming the scheme, with zero provider
lookups and zero cache reads or writes; on a Bearer header the token is
the second space-separated field, the text up to the next space (possibly
empty), with text after a second space dropped. -/
theorem C2_default_extractor (w t : List Char)
    (opts : BetterAuthPluginOptions) (cache : Cache)
    (provider : SessionResult) (hw : ' ' ∉ w) (hne : w ≠ []) :
    defaultGetToken none = .ok none ∧
    defaultGetToken (some "") = .ok none ∧
    (String.mk w ≠ "Bearer" →
      defaultGetToken (some (String.mk (w ++ ' ' :: t))) =
        .error (.gql (unauthorizedError
          ("Unsupported token type provided: \"" ++ String.mk w ++ "\""))) ∧
      (onRequestParse opts (some (String.mk (w ++ ' ' :: t))) cache
        provider).lookups = 0 ∧
      (onRequestParse opts (some (String.mk (w ++ ' ' :: t))) cache
        provider).cacheReads = 0 ∧
      (onRequestParse opts (some (String.mk (w ++ ' ' :: t))) cache
        provider).writes = []) ∧
    defaultGetToken (some (String.mk ("Bearer".data ++ ' ' :: t))) =
      .ok (some (String.mk (t.takeWhile fun c => c != ' '))) := by
  refine ⟨rfl, rfl, ?_, ?_⟩
  · intro hB
    have hdg := defaultGetToken_split w t hw hne
    rw [if_neg hB] at hdg
    exact ⟨hdg, by simp [onRequestParse, hdg], by simp [onRequestParse, hdg],
      by simp [onRequestParse, hdg]⟩
  · have hdg := defaultGetToken_split "Bearer".data t (by decide) (by decide)
    rw [if_pos rfl] at hdg
    exact hdg

/-- Options: no cache client, everything else defaulted. -/
def optsPlain : BetterAuthPluginOptions :=
  ⟨false, none, none, none, none, none, none⟩

/-- Options: cache client present, everything else defaulted. -/
def optsRedis : BetterAuthPluginOptions :=
  ⟨true, none, none, none, none, none, none⟩

/-- Options: no cache client, allowedRoles = ["admin"]. -/
def optsAdmin : BetterAuthPluginOptions :=
  ⟨false, none, none, some ["admin"], none, none, none⟩

/-- Options: cache client present, allowedRoles = ["admin"]. -/
def optsAdminRedis : BetterAuthPluginOptions :=
  ⟨true, none, none, some ["admin"], none, none, none⟩

/-- Options: no cache client, requireAuth = true. -/
def optsRequire : BetterAuthPluginOptions :=
  ⟨false, none, none, none, some true, none, none⟩

/-- A concrete valid session. -/
def sess1 : Session := ⟨"s1"⟩

/-- A user whose role is "editor". -/
def editorUser : User := ⟨"u1", some "editor"⟩

/-- Session data for the editor user with a valid session marker. -/
def editorData : SessionData := ⟨some sess1, editorUser⟩

/-- C1: with `allowedRoles=["admin"]` and an editor user holding a valid
session, the invalidPermissions classification survives only on the
cache-hit path; on the uncached path and on the cache-miss fresh-lookup
path the bare `catch` around `handleAuthData` re-wraps the
already-classified `Unauthorized(invalidPermissions)` as
`Unauthorized(invalidToken)`, so the error does not pass through
unchanged as the claim states. -/
theorem C1_rewrap_divergence :
    (authorize optsAdmin "T" [] (.ok (some editorData))).result =
      .error (.gql (unauthorizedError defaultMessages.invalidToken)) ∧
    (authorize optsAdminRedis "T" [] (.ok (some editorData))).result =
      .error (.gql (unauthorizedError defaultMessages.invalidToken)) ∧
    (authorize optsAdminRedis "T" [("tokens:T", .parseOk editorData)]
        .throws).result =
      .error (.gql (unauthorizedError defaultMessages.invalidPermissions)) ∧
    defaultMessages.invalidToken ≠ defaultMessages.invalidPermissions :=
  ⟨rfl, rfl, rfl, by decide⟩

/-- C4: the role check itself reads `user.role` with default `"user"` and
raises invalidPermissions exactly on non-membership, but at the
`authorize` boundary the uncached fresh-lookup path re-wraps that
failure as invalidToken, so `authorize` does not fail with
invalidPermissions there despite the role not being allowed. -/
theorem C4_role_check_divergence :
    handleAuthData editorData ["admin"] defaultMessages =
      .error (.gql (unauthorizedError defaultMessages.invalidPermissions)) ∧
    (authorize optsAdmin "T" [] (.ok (some editorData))).result =
      .error (.gql (unauthorizedError defaultMessages.invalidToken)) ∧
    defaultMessages.invalidToken ≠ defaultMessages.invalidPermissions ∧
    handleAuthData ⟨some sess1, ⟨"u2", none⟩⟩ ["user"] defaultMessages =
      .ok ⟨some sess1, ⟨"u2", none⟩⟩ ∧
    handleAuthData editorData [] defaultMessages = .ok ⟨some sess1, editorUser⟩ :=
  ⟨rfl, rfl, by decide, rfl, rfl⟩

/-- C6: with no cache client configured, every `authorize` invocation makes
exactly one provider lookup and touches the cache not at all; a throwing
lookup, a null `data`, or a missing session marker all yield
`Unauthorized(invalidToken)`; and every failure of this path is a
structured GraphQL error with HTTP status 401 and the configured
invalidToken message. -/
theorem C6_no_cache (opts : BetterAuthPluginOptions) (token : String)
    (cache : Cache) (provider : SessionResult) (h : opts.redis = false) :
    (authorize opts token cache provider).lookups = 1 ∧
    (authorize opts token cache provider).cacheReads = 0 ∧
    (authorize opts token cache provider).writes = [] ∧
    ((provider = .throws ∨ provider = .ok none ∨
      (∃ d, provider = .ok (some d) ∧ d.session = none)) →
      (authorize opts token cache provider).result =
        .error (.gql (unauthorizedError
          (opts.messages.getD defaultMessages).invalidToken))) ∧
    (∀ e, (authorize opts token cache provider).result = .error e →
      e = .gql ⟨(opts.messages.getD defaultMessages).invalidToken, 401⟩) := by
  rcases provider with _ | data
  · refine ⟨by simp [authorize, h], by simp [authorize, h],
      by simp [authorize, h], fun _ => by simp [authorize, h, unauthorizedError],
      fun e he => ?_⟩
    simp [authorize, h, unauthorizedError] at he
    simp [he]
  · rcases data with _ | d
    · refine ⟨by simp [authorize, h], by simp [authorize, h],
        by simp [authorize, h], fun _ => by simp [authorize, h, unauthorizedError],
        fun e he => ?_⟩
      simp [authorize, h, unauthorizedError] at he
      simp [he]
    · rcases hs : d.session with _ | s
      · refine ⟨by simp [authorize, h, hs], by simp [authorize, h, hs],
          by simp [authorize, h, hs],
          fun _ => by simp [authorize, h, hs, unauthorizedError],
          fun e he => ?_⟩
        simp [authorize, h, hs, unauthorizedError] at he
        simp [he]
      · cases hha : handleAuthData d (opts.allowedRoles.getD [])
          (opts.messages.getD defaultMessages) with
        | ok a =>
          refine ⟨by simp [authorize, h, hs, hha], by simp [authorize, h, hs, hha],
            by simp [authorize, h, hs, hha], fun hcontra => ?_, fun e he => ?_⟩
          · rcases hcontra with h1 | h1 | ⟨d2, h1, h2⟩
            · exact absurd h1 (by simp)
            · exact absurd h1 (by simp)
            · have : d2 = d := by
                injection h1 with h3
                injection h3 with h4
                exact h4.symm
              subst this
              rw [hs] at h2
              exact absurd h2 (by simp)
          · simp [authorize, h, hs, hha] at he
        | error e0 =>
          refine ⟨by simp [authorize, h, hs, hha], by simp [authorize, h, hs, hha],
            by simp [authorize, h, hs, hha],
            fun _ => by simp [authorize, h, hs, hha, unauthorizedError],
            fun e he => ?_⟩
          simp [authorize, h, hs, hha, unauthorizedError] at he
          simp [he]

/-- Witness for C6 at a concrete input: a throwing provider with no cache
yields one lookup and a 401 invalidToken error. -/
theorem C6_no_cache_witness :
    (authorize optsPlain "T" [] .throws).lookups = 1 ∧
    (authorize optsPlain "T" [] .throws).result =
      .error (.gql (unauthorizedError defaultMessages.invalidToken)) := by
  have h := C6_no_cache optsPlain "T" [] .throws rfl
  exact ⟨h.1, h.2.2.2.1 (Or.inl rfl)⟩

/-- Every `authorize` invocation performs at most one provider lookup, at
most one cache read and at most one cache write. -/
theorem authorize_effects_bound (o : BetterAuthPluginOptions) (t : String)
    (c : Cache) (p : SessionResult) :
    (authorize o t c p).lookups ≤ 1 ∧ (authorize o t c p).cacheReads ≤ 1 ∧
    (authorize o t c p).writes.length ≤ 1 := by
  simp only [authorize, authorizeFresh]
  repeat' split
  all_goals simp

/-- C3: with a cache client, default prefix and `cacheExpiration = 5`, a
first invocation on an empty cache makes one provider lookup, one cache
read and one write of the serialized data under key `tokens:T` with TTL
5; a second invocation finding that entry makes one cache read, zero
lookups, zero writes, and returns the same identity, whose session and
user are those of the looked-up data; and in general every invocation
makes at most one lookup, one cache read and one cache write. -/
theorem C3_cache_roundtrip (opts : BetterAuthPluginOptions) (T : String)
    (d : SessionData) (s : Session) (a : BetterAuth)
    (hredis : opts.redis = true)
    (hpref : opts.cachePrefix = none)
    (hexp : opts.cacheExpiration = some 5)
    (hsess : d.session = some s)
    (hha : handleAuthData d (opts.allowedRoles.getD [])
      (opts.messages.getD defaultMessages) = .ok a) :
    (authorize opts T [] (.ok (some d))).lookups = 1 ∧
    (authorize opts T [] (.ok (some d))).cacheReads = 1 ∧
    (authorize opts T [] (.ok (some d))).writes =
      [⟨"tokens:" ++ T, 5, .parseOk d⟩] ∧
    (authorize opts T [] (.ok (some d))).result = .ok a ∧
    (∀ p2, (authorize opts T [("tokens:" ++ T, .parseOk d)] p2).lookups = 0 ∧
      (authorize opts T [("tokens:" ++ T, .parseOk d)] p2).cacheReads = 1 ∧
      (authorize opts T [("tokens:" ++ T, .parseOk d)] p2).writes = [] ∧
      (authorize opts T [("tokens:" ++ T, .parseOk d)] p2).result = .ok a) ∧
    a.session = d.session ∧ a.user = d.user ∧
    (∀ o t c p, (authorize o t c p).lookups ≤ 1 ∧
      (authorize o t c p).cacheReads ≤ 1 ∧
      (authorize o t c p).writes.length ≤ 1) := by
  have hconcat : ("tokens" ++ ":" : String) = "tokens:" := by decide
  have ha_eq : a = ⟨d.session, d.user⟩ := by
    simp only [handleAuthData] at hha
    split at hha
    · split at hha
      · exact (Except.ok.inj hha).symm
      · exact absurd hha (by simp)
    · exact (Except.ok.inj hha).symm
  rw [show ("tokens:" ++ T : String) = "tokens" ++ ":" ++ T from hconcat.symm ▸ rfl]
  refine ⟨?_, ?_, ?_, ?_, fun p2 => ⟨?_, ?_, ?_, ?_⟩, ?_, ?_,
    fun o t c p => authorize_effects_bound o t c p⟩
  · simp [authorize, authorizeFresh, hredis, hpref, hexp, hsess, hha, cacheGet]
  · simp [authorize, authorizeFresh, hredis, hpref, hexp, hsess, hha, cacheGet]
  · simp [authorize, authorizeFresh, hredis, hpref, hexp, hsess, hha, cacheGet]
  · simp [authorize, authorizeFresh, hredis, hpref, hexp, hsess, hha, cacheGet]
  · simp [authorize, hredis, hpref, hexp, hha, cacheGet]
  · simp [authorize, hredis, hpref, hexp, hha, cacheGet]
  · simp [authorize, hredis, hpref, hexp, hha, cacheGet]
  · simp [authorize, hredis, hpref, hexp, hha, cacheGet]
  · rw [ha_eq]
  · rw [ha_eq]

/-- Options: cache client present, cacheExpiration = 5 given explicitly. -/
def optsRedis5 : BetterAuthPluginOptions :=
  ⟨true, none, none, none, none, none, none⟩

/-- Witness for C3 at a concrete input: first call writes `tokens:T` with
TTL 5; a second call on the written entry does zero lookups and returns
the same identity. -/
theorem C3_cache_roundtrip_witness :
    (authorize ⟨true, none, some 5, none, none, none, none⟩ "T" []
      (.ok (some editorData))).writes =
        [⟨"tokens:" ++ "T", 5, .parseOk editorData⟩] ∧
    (authorize ⟨true, none, some 5, none, none, none, none⟩ "T"
      [("tokens:" ++ "T", .parseOk editorData)] .throws).lookups = 0 ∧
    (authorize ⟨true, none, some 5, none, none, none, none⟩ "T"
      [("tokens:" ++ "T", .parseOk editorData)] .throws).result =
        .ok ⟨some sess1, editorUser⟩ := by
  have h := C3_cache_roundtrip ⟨true, none, some 5, none, none, none, none⟩
    "T" editorData sess1 ⟨some sess1, editorUser⟩ rfl rfl rfl rfl rfl
  exact ⟨h.2.2.1, (h.2.2.2.2.1 .throws).1, (h.2.2.2.2.1 .throws).2.2.2⟩

/-- C5: with no authorization header, the default extractor finds no token;
with `requireAuth` set the pre-parse hook throws the 401 authRequired
error, and with `requireAuth` unset or false neither hook throws: the
pre-parse hook records nothing and the context-build hook (with the
request present) attaches nothing to the context. -/
theorem C5_no_header (opts : BetterAuthPluginOptions) (cache : Cache)
    (provider : SessionResult) :
    (opts.requireAuth.getD false = true →
      (onRequestParse opts none cache provider).result =
        .error (.gql (unauthorizedError
          (opts.messages.getD defaultMessages).authRequired))) ∧
    (opts.requireAuth.getD false = false →
      (onRequestParse opts none cache provider).result = .ok none ∧
      onContextBuilding opts true
        (storedPayload (onRequestParse opts none cache provider)) = .ok none) := by
  constructor
  · intro h
    simp [onRequestParse, defaultGetToken, h]
  · intro h
    refine ⟨by simp [onRequestParse, defaultGetToken, h], ?_⟩
    simp [onRequestParse, defaultGetToken, h, storedPayload, onContextBuilding]

/-- Witness for C5 at concrete inputs: requireAuth=true throws authRequired;
with all-default options nothing is thrown and nothing attached. -/
theorem C5_no_header_witness :
    (onRequestParse optsRequire none [] .throws).result =
      .error (.gql (unauthorizedError defaultMessages.authRequired)) ∧
    (onRequestParse optsPlain none [] .throws).result = .ok none ∧
    onContextBuilding optsPlain true
      (storedPayload (onRequestParse optsPlain none [] .throws)) = .ok none := by
  have h1 := C5_no_header optsRequire [] .throws
  have h2 := C5_no_header optsPlain [] .throws
  exact ⟨h1.1 rfl, (h2.2 rfl).1, (h2.2 rfl).2⟩

/-- C7: the context-build hook with no request on the context throws a
plain Error (never a GraphQL 401); with the request present and a
recorded payload, it extends the context with exactly that payload under
the configured field name, `"auth"` by default. -/
theorem C7_context_build (opts : BetterAuthPluginOptions)
    (stored : Option BetterAuth) (payload : BetterAuth) :
    onContextBuilding opts false stored =
      .error (.fatal
        "Request is not available on context! Make sure you use this plugin with GraphQL Yoga.") ∧
    (∀ g : GraphQLError, onContextBuilding opts false stored ≠ .error (.gql g)) ∧
    (stored = some payload →
      onContextBuilding opts true stored =
        .ok (some (opts.extendContextField.getD "auth", payload))) := by
    refine ⟨rfl, fun g hg => ?_, fun h => by simp [onContextBuilding, h]⟩
    simp [onContextBuilding] at hg

/-- Witness for C7 at a concrete input. -/
theorem C7_context_build_witness :
    onContextBuilding optsPlain false none =
      .error (.fatal
        "Request is not available on context! Make sure you use this plugin with GraphQL Yoga.") ∧
    onContextBuilding optsPlain true (some ⟨some sess1, editorUser⟩) =
      .ok (some ("auth", ⟨some sess1, editorUser⟩)) := by
  have h := C7_context_build optsPlain (some ⟨some sess1, editorUser⟩)
    ⟨some sess1, editorUser⟩
  exact ⟨(C7_context_build optsPlain none ⟨some sess1, editorUser⟩).1, h.2.2 rfl⟩

/-- C8: on a cache hit whose stored string parses, `authorize` runs only
the role check and never re-validates the session marker: whenever the
role check passes (empty allow-list or member role), it succeeds with the
deserialized session and user, even when the deserialized data has no
session at all, and makes zero provider lookups. -/
theorem C8_cache_hit_no_session_check (opts : BetterAuthPluginOptions)
    (T : String) (cache : Cache) (d : SessionData) (p : SessionResult)
    (hredis : opts.redis = true)
    (hhit : cacheGet cache (opts.cachePrefix.getD "tokens" ++ ":" ++ T) =
      some (.parseOk d))
    (hrole : opts.allowedRoles.getD [] = [] ∨
      (opts.allowedRoles.getD []).contains (userRole d.user) = true) :
    (authorize opts T cache p).result = .ok ⟨d.session, d.user⟩ ∧
    (authorize opts T cache p).lookups = 0 := by
  have hha : handleAuthData d (opts.allowedRoles.getD [])
      (opts.messages.getD defaultMessages) = .ok ⟨d.session, d.user⟩ := by
    rcases hrole with h | h
    · simp [handleAuthData, h]
    · have hm : userRole d.user ∈ opts.allowedRoles.getD [] := by
        simpa using h
      simp [handleAuthData, hm]
  constructor
  · simp [authorize, hredis, hhit, hha]
  · simp [authorize, hredis, hhit, hha]

/-- Witness for C8 at a concrete input: a cached entry with no session
field at all still authorizes on a hit, with zero provider lookups. -/
theorem C8_cache_hit_no_session_check_witness :
    (authorize optsRedis "T" [("tokens:T", .parseOk ⟨none, editorUser⟩)]
      .throws).result = .ok ⟨none, editorUser⟩ ∧
    (authorize optsRedis "T" [("tokens:T", .parseOk ⟨none, editorUser⟩)]
      .throws).lookups = 0 := by
  have h := C8_cache_hit_no_session_check optsRedis "T"
    [("tokens:T", .parseOk ⟨none, editorUser⟩)] ⟨none, editorUser⟩ .throws
    rfl rfl (Or.inl rfl)
  exact h

/-- C9: a header `Bearer ` (trailing space) yields the empty-string token,
which counts as present at the hook level: the pre-parse hook runs
`authorize` with the empty credential and its outcome is exactly the
outcome of that call, never the authRequired error; by contrast a header
of exactly `Bearer` yields no token at all, which with `requireAuth` set
throws authRequired. -/
theorem C9_empty_credential (opts : BetterAuthPluginOptions) (cache : Cache)
    (provider : SessionResult) :
    defaultGetToken (some "Bearer ") = .ok (some "") ∧
    (onRequestParse opts (some "Bearer ") cache provider).result =
      Except.map some (authorize opts "" cache provider).result ∧
    defaultGetToken (some "Bearer") = .ok none ∧
    (opts.requireAuth.getD false = true →
      (onRequestParse opts (some "Bearer") cache provider).result =
        .error (.gql (unauthorizedError
          (opts.messages.getD defaultMessages).authRequired))) := by
  have hd : defaultGetToken (some "Bearer ") = .ok (some "") := rfl
  have hd2 : defaultGetToken (some "Bearer") = .ok none := rfl
  refine ⟨rfl, ?_, rfl, fun h => by simp [onRequestParse, hd2, h]⟩
  simp only [onRequestParse, hd]
  cases hres : (authorize opts "" cache provider).result <;>
    simp [hres, Except.map]

/-- Witness for C9 at a concrete input: with requireAuth set, a `Bearer `
header reaches authorize (failing as invalidToken on a throwing
provider), while a bare `Bearer` header fails as authRequired. -/
theorem C9_empty_credential_witness :
    (onRequestParse optsRequire (some "Bearer ") [] .throws).result =
      .error (.gql (unauthorizedError defaultMessages.invalidToken)) ∧
    (onRequestParse optsRequire (some "Bearer") [] .throws).result =
      .error (.gql (unauthorizedError defaultMessages.authRequired)) := by
  have h := C9_empty_credential optsRequire [] .throws
  refine ⟨?_, h.2.2.2 rfl⟩
  rw [h.2.1]
  rfl

/-- C10: an empty-string role is falsy and defaults to `"user"` exactly
like an absent role: with a non-empty allow-list the role check passes
iff `"user"` is in the list, and at the `authorize` level (fresh valid
session, no cache) the request succeeds iff `"user"` is in the list. -/
theorem C10_empty_role_defaults (allowedRoles : List String)
    (messages : Messages) (sess : Option Session) (uid : String)
    (hne : allowedRoles ≠ []) :
    userRole ⟨uid, some ""⟩ = "user" ∧
    ("user" ∈ allowedRoles →
      handleAuthData ⟨sess, ⟨uid, some ""⟩⟩ allowedRoles messages =
        .ok ⟨sess, ⟨uid, some ""⟩⟩) ∧
    ("user" ∉ allowedRoles →
      handleAuthData ⟨sess, ⟨uid, some ""⟩⟩ allowedRoles messages =
        .error (.gql (unauthorizedError messages.invalidPermissions))) ∧
    (∀ (s : Session) (T : String) (cache : Cache),
      ((∃ b, (authorize
          ⟨false, none, none, some allowedRoles, none, none, some messages⟩
          T cache (.ok (some ⟨some s, ⟨uid, some ""⟩⟩))).result = .ok b) ↔
        "user" ∈ allowedRoles)) := by
  have hlen : 0 < allowedRoles.length := List.length_pos.mpr hne
  refine ⟨rfl, fun hm => ?_, fun hm => ?_, fun s T cache => ?_⟩
  · simp [handleAuthData, hlen, userRole, hm]
  · simp [handleAuthData, hlen, userRole, hm]
  · constructor
    · rintro ⟨b, hb⟩
      by_contra hm
      have hha : handleAuthData ⟨some s, ⟨uid, some ""⟩⟩ allowedRoles messages =
          .error (.gql (unauthorizedError messages.invalidPermissions)) := by
        simp [handleAuthData, hlen, userRole, hm]
      simp [authorize, hha] at hb
    · intro hm
      have hha : handleAuthData ⟨some s, ⟨uid, some ""⟩⟩ allowedRoles messages =
          .ok ⟨some s, ⟨uid, some ""⟩⟩ := by
        simp [handleAuthData, hlen, userRole, hm]
      refine ⟨⟨some s, ⟨uid, some ""⟩⟩, ?_⟩
      simp [authorize, hha]

/-- Witness for C10 at concrete inputs: an empty-string role passes the
check exactly when `"user"` is allowed. -/
theorem C10_empty_role_defaults_witness :
    handleAuthData ⟨some sess1, ⟨"u3", some ""⟩⟩ ["user"] defaultMessages =
      .ok ⟨some sess1, ⟨"u3", some ""⟩⟩ ∧
    handleAuthData ⟨some sess1, ⟨"u3", some ""⟩⟩ ["admin"] defaultMessages =
      .error (.gql (unauthorizedError defaultMessages.invalidPermissions)) := by
  have h1 := C10_empty_role_defaults ["user"] defaultMessages (some sess1) "u3"
    (by decide)
  have h2 := C10_empty_role_defaults ["admin"] defaultMessages (some sess1) "u3"
    (by decide)
  exact ⟨h1.2.1 (by decide), h2.2.2.1 (by decide)⟩

/-- Witness for C2 at concrete inputs: a Basic header throws naming the
scheme with no lookups; a Bearer header with two further fields yields
only the first of them. -/
theorem C2_default_extractor_witness :
    defaultGetToken (some (String.mk ("Basic".data ++ ' ' :: "x".data))) =
      .error (.gql (unauthorizedError
        "Unsupported token type provided: \"Basic\"")) ∧
    (onRequestParse optsPlain
      (some (String.mk ("Basic".data ++ ' ' :: "x".data))) []
      .throws).lookups = 0 ∧
    defaultGetToken (some (String.mk ("Bearer".data ++ ' ' :: "a b".data))) =
      .ok (some "a") := by
  have h1 := C2_default_extractor "Basic".data "x".data optsPlain [] .throws
    (by decide) (by decide)
  have h2 := C2_default_extractor "Bearer".data "a b".data optsPlain []
    .throws (by decide) (by decide)
  obtain ⟨-, -, h3, -⟩ := h1
  obtain ⟨hd, hl, -, -⟩ := h3 (by decide)
  exact ⟨hd, hl, h2.2.2.2⟩

-- Sanity checks on concrete inputs.
example : defaultGetToken (some "Bearer abc") = .ok (some "abc") := by rfl
example : defaultGetToken (some "Bearer a b") = .ok (some "a") := by rfl
example : defaultGetToken (some "Bearer") = .ok none := by rfl
example : defaultGetToken (some "Bearer ") = .ok (some "") := by rfl
example : defaultGetToken none = .ok none := by rfl
example : defaultGetToken (some "Basic x") =
    .error (.gql ⟨"Unsupported token type provided: \"Basic\"", 401⟩) := by rfl
